import Mathlib

/-!
Verification of the document-type classification and structured-extraction
pipeline of the Datapdfimg repository, as a shallow embedding in Lean 4.

Python dictionaries are modelled as association lists of string keys to a
PyVal type mirroring JSON-decoded Python values; Python string helpers
(strip, lower, substring membership) are modelled over Lean strings with
the ASCII whitespace set used by the repository's data. Remote calls
(OCR engine, LLM, vision model) and library parsers (pypdf, pandas,
json.loads) are modelled as parameters carrying their outcome, while every
branch and every result constructed by the repository's own code is
embedded directly from the source.
-/

namespace Datapdfimg

/-! ## Python value and string model -/

/-- Values produced by json.loads and passed around in the repository's
dict-shaped payloads. idictV models the one int-keyed dictionary used by
the PDF extractors (text_by_page). -/
inductive PyVal where
  | noneV : PyVal
  | boolV : Bool → PyVal
  | intV : Int → PyVal
  | ratV : Rat → PyVal
  | strV : String → PyVal
  | listV : List PyVal → PyVal
  | dictV : List (String × PyVal) → PyVal
  | idictV : List (Nat × PyVal) → PyVal

/-- A Python dict with string keys. -/
abbrev PyDict := List (String × PyVal)

/-- Dictionary lookup (d.get(k) / d[k] when present). -/
def pyGet (d : PyDict) (k : String) : Option PyVal :=
  match d with
  | [] => Option.none
  | (k', v) :: rest => if k' = k then some v else pyGet rest k

/-- Dictionary lookup with default (d.get(k, dflt)). -/
def pyGetD (d : PyDict) (k : String) (dflt : PyVal) : PyVal :=
  (pyGet d k).getD dflt

/-- Dictionary assignment d[k] = v, preserving the position of an existing
key as CPython does. -/
def pySet (d : PyDict) (k : String) (v : PyVal) : PyDict :=
  match d with
  | [] => [(k, v)]
  | (k', v') :: rest => if k' = k then (k, v) :: rest else (k', v') :: pySet rest k v

/-- Python dict merge as in the source's unpacking of two dicts into one:
keys of the second override, insertion order of the first preserved. -/
def dictMerge (a b : PyDict) : PyDict :=
  b.foldl (fun acc p => pySet acc p.1 p.2) a

/-- View a PyVal as a dict (empty for non-dicts; the source only applies
this to values its own code stored as dicts). -/
def asDict : PyVal → PyDict
  | .dictV d => d
  | _ => []

/-- Python truthiness of a value. -/
def pyTruthy : PyVal → Bool
  | .noneV => false
  | .boolV b => b
  | .intV n => n ≠ 0
  | .ratV q => q ≠ 0
  | .strV s => s ≠ ""
  | .listV xs => !xs.isEmpty
  | .dictV d => !d.isEmpty
  | .idictV d => !d.isEmpty

/-- Python type name of a value (for AttributeError messages). -/
def pyTypeName : PyVal → String
  | .noneV => "NoneType"
  | .boolV _ => "bool"
  | .intV _ => "int"
  | .ratV _ => "float"
  | .strV _ => "str"
  | .listV _ => "list"
  | .dictV _ => "dict"
  | .idictV _ => "dict"

/-- Rough Python str() of a value, used only inside note texts. -/
def pyStr : PyVal → String
  | .noneV => "None"
  | .boolV b => if b then "True" else "False"
  | .intV n => toString n
  | .ratV q => toString q
  | .strV s => s
  | .listV _ => "[...]"
  | .dictV _ => "..."
  | .idictV _ => "..."

/-- Numeric reading of a value, for the source's numeric comparisons. -/
def pyAsRat : PyVal → Option Rat
  | .intV n => some (n : Rat)
  | .ratV q => some q
  | _ => Option.none

/-- Whitespace characters stripped by Python str.strip (ASCII model). -/
def isPySpace (c : Char) : Bool :=
  (c = ' ') || (c = '\t') || (c = '\n') || (c = '\r') || (c = '\x0b') || (c = '\x0c')

/-- Model of Python str.strip(): drop leading and trailing whitespace. -/
def pyStrip (s : String) : String :=
  String.mk (((s.data.dropWhile isPySpace).reverse.dropWhile isPySpace).reverse)

/-- Model of Python str.lower() for the ASCII range. -/
def pyLower (s : String) : String :=
  String.mk (s.data.map Char.toLower)

/-- Occurrence of a character list inside another, checked at every suffix. -/
def listOccurs (needle : List Char) : List Char → Bool
  | [] => needle.isEmpty
  | c :: rest => needle.isPrefixOf (c :: rest) || listOccurs needle rest

/-- Model of the Python substring test "needle in hay". -/
def pyIn (needle hay : String) : Bool :=
  listOccurs needle.data hay.data

/-- Python " ".join(xs)-style joining with a single-space separator. -/
def joinSpace : List String → String
  | [] => ""
  | [x] => x
  | x :: rest => x ++ " " ++ joinSpace rest

/-- The source's any(keyword in hay for keyword in kws). -/
def anyKw (hay : String) (kws : List String) : Bool :=
  kws.any (fun k => pyIn k hay)

/-- Number of non-whitespace characters of a string (used to state the
spec's reading of the native-PDF threshold). -/
def countNonWs (s : String) : Nat :=
  (s.data.filter (fun c => !isPySpace c)).length

/-- Python "hint or fallback": the fallback is used when the hint is None
or an empty (falsy) string. -/
def pyOrStr (hint : Option String) (fallback : String) : String :=
  match hint with
  | some s => if s = "" then fallback else s
  | Option.none => fallback

/-! ## PDF type probe: PDFProcessor._check_pdf_type (app/services/pdf_processor.py) -/

/-- The literal threshold min_text_length = 50 of _check_pdf_type. -/
def min_text_length : Nat := 50

/-- The page loop of _check_pdf_type: scan pages in order, and stop at the
first page whose extracted text is non-empty (truthy) and whose stripped
length exceeds min_text_length. -/
def checkPdfIsNative : List String → Bool
  | [] => false
  | t :: rest =>
    if t ≠ "" ∧ (pyStrip t).length > min_text_length then true
    else checkPdfIsNative rest

/-- PDFProcessor._check_pdf_type: returns (is_native, page_count), embedded
over the list of per-page extracted texts. -/
def check_pdf_type (pages : List String) : Bool × Nat :=
  (checkPdfIsNative pages, pages.length)

/-- A page whose stripped text is long only because of interior whitespace:
two non-whitespace characters separated by 100 spaces. -/
def c4Page : String := "a" ++ String.mk (List.replicate 100 ' ') ++ "b"

/-! ## Heuristic type detection (app/services/pdf_processor.py and
app/services/tabular_processor.py, _detect_document_type) -/

/-- PDFProcessor._detect_document_type: per category, a filename keyword
match OR a full-text keyword match selects the category; categories are
tried in the fixed order of the source's if/elif chain. -/
def pdf_detect_document_type (text_content : List (Nat × String)) (filename : String) : String :=
  let all_text := pyLower (joinSpace (text_content.map Prod.snd))
  let filename_lower := pyLower filename
  if anyKw filename_lower ["fattura", "invoice"] ||
     anyKw all_text ["fattura", "invoice", "partita iva", "codice fiscale", "imponibile", "iva"] then
    "fattura"
  else if anyKw filename_lower ["bilancio", "balance"] ||
     anyKw all_text ["bilancio", "stato patrimoniale", "conto economico", "balance sheet", "income statement"] then
    "bilancio"
  else if anyKw filename_lower ["magazzino", "inventory", "stock"] ||
     anyKw all_text ["magazzino", "inventario", "stock", "quantità", "giacenza"] then
    "magazzino"
  else if anyKw filename_lower ["corrispettivo", "receipt", "scontrino"] ||
     anyKw all_text ["corrispettivo", "scontrino", "ricevuta", "receipt"] then
    "corrispettivo"
  else if anyKw filename_lower ["analisi", "report", "analysis", "market"] ||
     anyKw all_text ["analisi", "report", "mercato", "trend", "previsioni", "forecast"] then
    "analisi_mercato"
  else
    "documento_generico"

/-- The column-scan loop of TabularProcessor._detect_document_type: sheets
are visited in order, empty sheets are skipped, and the first sheet whose
first-record column names match a keyword group decides; a sheet with no
match falls through to the next sheet. -/
def tabularColumnsDetect : List (String × List PyDict) → Option String
  | [] => Option.none
  | (_, rows) :: rest =>
    match rows with
    | [] => tabularColumnsDetect rest
    | r :: _ =>
      let columns_str := joinSpace (r.map (fun p => pyLower p.1))
      if anyKw columns_str ["fattura", "invoice", "importo", "iva"] then some "fattura"
      else if anyKw columns_str ["bilancio", "balance", "attivo", "passivo"] then some "bilancio"
      else if anyKw columns_str ["magazzino", "inventory", "stock", "quantità"] then some "magazzino"
      else if anyKw columns_str ["corrispettivo", "receipt", "scontrino"] then some "corrispettivo"
      else if anyKw columns_str ["analisi", "report", "mercato", "trend"] then some "analisi_mercato"
      else tabularColumnsDetect rest

/-- TabularProcessor._detect_document_type: filename keywords are tried
first for all five categories, and only if none matches are the
column-name keyword groups consulted. -/
def tabular_detect_document_type (data_dict : List (String × List PyDict)) (filename : String) : String :=
  let filename_lower := pyLower filename
  if anyKw filename_lower ["fattura", "invoice"] then "fattura"
  else if anyKw filename_lower ["bilancio", "balance"] then "bilancio"
  else if anyKw filename_lower ["magazzino", "inventory", "stock"] then "magazzino"
  else if anyKw filename_lower ["corrispettivo", "receipt"] then "corrispettivo"
  else if anyKw filename_lower ["analisi", "report", "analysis"] then "analisi_mercato"
  else
    match tabularColumnsDetect data_dict with
    | some t => t
    | Option.none => "documento_generico"

/-- A keyword category: result label, filename keywords, text keywords. -/
structure KwCat where
  label : String
  fnKws : List String
  txtKws : List String

/-- First category satisfying the predicate wins; otherwise generic. -/
def firstLabel (p : KwCat → Bool) : List KwCat → String
  | [] => "documento_generico"
  | c :: rest => if p c then c.label else firstLabel p rest

/-- The five categories of the PDF detector, in source order. -/
def pdfCats : List KwCat :=
  [⟨"fattura", ["fattura", "invoice"],
    ["fattura", "invoice", "partita iva", "codice fiscale", "imponibile", "iva"]⟩,
   ⟨"bilancio", ["bilancio", "balance"],
    ["bilancio", "stato patrimoniale", "conto economico", "balance sheet", "income statement"]⟩,
   ⟨"magazzino", ["magazzino", "inventory", "stock"],
    ["magazzino", "inventario", "stock", "quantità", "giacenza"]⟩,
   ⟨"corrispettivo", ["corrispettivo", "receipt", "scontrino"],
    ["corrispettivo", "scontrino", "ricevuta", "receipt"]⟩,
   ⟨"analisi_mercato", ["analisi", "report", "analysis", "market"],
    ["analisi", "report", "mercato", "trend", "previsioni", "forecast"]⟩]

/-- Ordered first-match semantics of the PDF detector: a category matches
when a filename keyword or a full-text keyword of that category occurs. -/
def pdfDetectOrdered (text_content : List (Nat × String)) (filename : String) : String :=
  let all_text := pyLower (joinSpace (text_content.map Prod.snd))
  let filename_lower := pyLower filename
  firstLabel (fun c => anyKw filename_lower c.fnKws || anyKw all_text c.txtKws) pdfCats

/-- Modelled from the spec (claim C3 as stated): filename keyword matching
evaluated first across all five categories, and only when no filename
keyword matches is full-text keyword matching consulted. The keyword sets
are those of the PDF detector. -/
def claimC3PdfDetect (text_content : List (Nat × String)) (filename : String) : String :=
  let all_text := pyLower (joinSpace (text_content.map Prod.snd))
  let filename_lower := pyLower filename
  if anyKw filename_lower ["fattura", "invoice"] then "fattura"
  else if anyKw filename_lower ["bilancio", "balance"] then "bilancio"
  else if anyKw filename_lower ["magazzino", "inventory", "stock"] then "magazzino"
  else if anyKw filename_lower ["corrispettivo", "receipt", "scontrino"] then "corrispettivo"
  else if anyKw filename_lower ["analisi", "report", "analysis", "market"] then "analisi_mercato"
  else if anyKw all_text ["fattura", "invoice", "partita iva", "codice fiscale", "imponibile", "iva"] then "fattura"
  else if anyKw all_text ["bilancio", "stato patrimoniale", "conto economico", "balance sheet", "income statement"] then "bilancio"
  else if anyKw all_text ["magazzino", "inventario", "stock", "quantità", "giacenza"] then "magazzino"
  else if anyKw all_text ["corrispettivo", "scontrino", "ricevuta", "receipt"] then "corrispettivo"
  else if anyKw all_text ["analisi", "report", "mercato", "trend", "previsioni", "forecast"] then "analisi_mercato"
  else "documento_generico"

/-- The five filename keyword groups of the tabular detector, in source
order. -/
def tabFnCats : List (String × List String) :=
  [("fattura", ["fattura", "invoice"]),
   ("bilancio", ["bilancio", "balance"]),
   ("magazzino", ["magazzino", "inventory", "stock"]),
   ("corrispettivo", ["corrispettivo", "receipt"]),
   ("analisi_mercato", ["analisi", "report", "analysis"])]

/-- Filename-first semantics of the tabular detector: the first category
whose filename keywords match wins; only when none matches are the
column-name keyword groups consulted, and generic is the default. -/
def tabDetectFilenameFirst (data_dict : List (String × List PyDict)) (filename : String) : String :=
  let filename_lower := pyLower filename
  match tabFnCats.find? (fun c => anyKw filename_lower c.2) with
  | some c => c.1
  | Option.none => (tabularColumnsDetect data_dict).getD "documento_generico"

/-! ## LLM extraction adapter (app/services/llm_service.py):
response-content handling of analyze_document_text / analyze_document_image.
The remote call and json.loads are external; the parameter is the outcome
of json.loads on the message content (error = JSONDecodeError). -/

/-- The AttributeError message raised by analysis.get(...) on a non-dict. -/
def attrErrMsg (v : PyVal) (attr : String) : String :=
  "\x27" ++ pyTypeName v ++ "\x27 object has no attribute \x27" ++ attr ++ "\x27"

/-- analyze_document_text, from the parse outcome of the model response
content: a parsed JSON object is returned as-is; a JSONDecodeError hits the
inner handler; a parsed non-object raises AttributeError at the logging
call's .get and hits the outer handler. Both handlers return the degraded
dict of the source instead of raising. -/
def analyze_document_text_content (parsed : Except String PyVal) : PyDict :=
  match parsed with
  | .error _ =>
    [("document_type", .strV "sconosciuto"),
     ("confidence_score", .ratV 0),
     ("extracted_data", .dictV []),
     ("summary", .strV "Impossibile analizzare il documento"),
     ("error", .strV "Errore nel parsing JSON")]
  | .ok (.dictV fields) => fields
  | .ok v =>
    [("document_type", .strV "sconosciuto"),
     ("confidence_score", .ratV 0),
     ("extracted_data", .dictV []),
     ("summary", .strV "Errore durante l\x27analisi del documento"),
     ("error", .strV (attrErrMsg v "get"))]

/-- analyze_document_image, same structure as analyze_document_text but
with the raw_text field of the image variant's degraded dicts. -/
def analyze_document_image_content (parsed : Except String PyVal) : PyDict :=
  match parsed with
  | .error _ =>
    [("document_type", .strV "sconosciuto"),
     ("confidence_score", .ratV 0),
     ("extracted_data", .dictV []),
     ("raw_text", .strV ""),
     ("summary", .strV "Impossibile analizzare il documento"),
     ("error", .strV "Errore nel parsing JSON")]
  | .ok (.dictV fields) => fields
  | .ok v =>
    [("document_type", .strV "sconosciuto"),
     ("confidence_score", .ratV 0),
     ("extracted_data", .dictV []),
     ("raw_text", .strV ""),
     ("summary", .strV "Errore durante l\x27analisi dell\x27immagine documento"),
     ("error", .strV (attrErrMsg v "get"))]

/-- The degraded-result shape required of the adapters by the spec. -/
def DegradedResult (d : PyDict) : Prop :=
  pyGet d "document_type" = some (.strV "sconosciuto") ∧
  pyGet d "confidence_score" = some (.ratV 0) ∧
  pyGet d "extracted_data" = some (.dictV []) ∧
  ∃ s, pyGet d "error" = some (.strV s) ∧ s ≠ ""

/-! ## Vision-model override (version_backup/document_processor.py,
_process_image lines 182-199): mistral-vision classification applied to
the analysis dict only above the 0.7 confidence threshold. -/

/-- The mistral_vision payload as always constructed by
image_processor.process_image (document_type, confidence, extracted_data,
language keys). -/
structure MistralVisionInfo where
  document_type : String
  confidence : Rat
  extracted_data : PyVal
  language : String

/-- The dict stored under the mistral_vision key of the analysis. -/
def mvToVal (info : MistralVisionInfo) : PyVal :=
  .dictV [("document_type", .strV info.document_type),
          ("confidence", .ratV info.confidence),
          ("extracted_data", info.extracted_data),
          ("language", .strV info.language)]

/-- The mistral-vision application step of _process_image: store the
payload, override document_type and confidence_score only when
confidence > 0.7, and always take the vision extracted_data. -/
def apply_mistral_vision (analysis : PyDict) (mv : Option MistralVisionInfo) : PyDict :=
  match mv with
  | Option.none => analysis
  | some info =>
    let a1 := pySet analysis "mistral_vision" (mvToVal info)
    let a2 :=
      if info.confidence > 0.7 then
        pySet (pySet a1 "document_type" (.strV info.document_type))
          "confidence_score" (.ratV info.confidence)
      else a1
    pySet a2 "extracted_data" info.extracted_data

/-! ## Image pipeline escalation (app/services/document_processor.py,
_process_image): OCR text below 200 trimmed characters escalates to the
vision model. The OCR outcome, the vision-model result and the text-model
result are parameters; the second component counts vision-model calls. -/

/-- _process_image, given the OCR text and image analysis produced by
image_processor.process_image and the two possible LLM outcomes. -/
def process_image_pipeline (text : String) (image_analysis : PyDict)
    (visionResult : PyDict) (llmTextResult : PyDict) : PyDict × Nat :=
  let escalate := (pyStrip text).length < 200
  let step :=
    if escalate then (visionResult, 1)
    else (pySet llmTextResult "raw_text" (.strV text), 0)
  let analysis := step.1
  let analysis := pySet analysis "image_info" (pyGetD image_analysis "image_info" (.dictV []))
  let analysis := pySet analysis "ocr_info" (pyGetD image_analysis "ocr_data" (.dictV []))
  let notes1 : List PyVal :=
    if pyTruthy (pyGetD analysis "error" .noneV) then
      [.strV ("Errore nell\x27analisi: " ++ pyStr (pyGetD analysis "error" .noneV))]
    else []
  let ocrConf := pyGetD (asDict (pyGetD image_analysis "ocr_data" (.dictV []))) "confidence" (.intV 0)
  let notes2 : List PyVal :=
    match pyAsRat ocrConf with
    | some q =>
      if q < 70 then [.strV "Bassa confidenza OCR, i risultati potrebbero non essere accurati"]
      else []
    | Option.none => []
  let analysis := pySet analysis "processing_notes" (.listV (notes1 ++ notes2))
  (analysis, step.2)

/-! ## Scanned-PDF extraction (app/services/pdf_processor.py,
_extract_from_scanned_pdf and the scanned branch of process_pdf). The
pypdf metadata pairs and the per-page OCR outcome are parameters; the
render log records, per page, the zoom of the fitz Matrix used for the
rasterization. -/

/-- The zoom of fitz.Matrix(300/72, 300/72): the 300-DPI rasterization. -/
def fitzMatrixZoom : Rat := 300 / 72

/-- The pypdf metadata loop shared by both extractors: keep the pairs with
a truthy key and value whose key starts with the PDF key prefix, and strip
that prefix. -/
def extract_pdf_metadata (pairs : List (String × String)) : PyDict :=
  (pairs.filter (fun p => p.1 ≠ "" ∧ p.2 ≠ "" ∧ "/".data.isPrefixOf p.1.data)).map
    (fun p => (p.1.drop 1, .strV p.2))

/-- _extract_from_scanned_pdf: per page, rasterize at the fixed matrix and
OCR the page image; returns (text_by_page, render log, metadata). When
pytesseract is unavailable the stub page of the source is returned. -/
def extract_from_scanned_pdf (tesseractAvailable : Bool)
    (metaPairs : List (String × String)) (pageCount : Nat) (ocrText : Nat → String) :
    List (Nat × String) × List (Nat × Rat) × PyDict :=
  if !tesseractAvailable then
    ([(0, "OCR non disponibile: pytesseract non installato")], [],
     [("error", .strV "OCR non disponibile")])
  else
    ((List.range pageCount).map (fun i => (i, ocrText i)),
     (List.range pageCount).map (fun i => (i, fitzMatrixZoom)),
     extract_pdf_metadata metaPairs)

/-- The scanned branch of PDFProcessor.process_pdf: run the scanned
extractor and assemble the result dict of the source (document_type,
metadata, extracted_data with the page-indexed text mapping and the image
count, processing_notes). The second component is the render log. -/
def process_pdf_scanned (filename : String) (document_type : Option String)
    (tesseractAvailable : Bool) (metaPairs : List (String × String))
    (pageCount : Nat) (ocrText : Nat → String) : PyDict × List (Nat × Rat) :=
  let ext := extract_from_scanned_pdf tesseractAvailable metaPairs pageCount ocrText
  let text_by_page := ext.1
  let renderLog := ext.2.1
  let pdfMeta := ext.2.2
  let detected := pyOrStr document_type (pdf_detect_document_type text_by_page filename)
  ([("document_type", .strV detected),
    ("metadata", .dictV
      [("original_filename", .strV filename),
       ("file_type", .strV "pdf"),
       ("is_native", .boolV false),
       ("page_count", .intV pageCount),
       ("pdf_metadata", .dictV pdfMeta)]),
    ("extracted_data", .dictV
      [("text", .idictV (text_by_page.map (fun p => (p.1, .strV p.2)))),
       ("images_count", .intV renderLog.length)]),
    ("processing_notes", .listV [])],
   renderLog)

/-- The OCR outcome of the two-page scanned document used as the concrete
counterexample input of the raw_text claim. -/
def c5Ocr : Nat → String
  | 0 => "testo pagina uno"
  | _ => "testo pagina due"

/-! ## Result assembling and cleanup (app/services/document_processor.py,
process_document). The extension dispatch of lines 66-120 selects a
processor whose outcome (the per-format result dict plus the file_type
string, or a raised exception) is the parameter; the try/except/finally
around it is embedded directly. The second component is the list of
cleanup_temp_file invocations. -/

/-- A raised Python exception, reduced to its message. -/
structure PyExc where
  msg : String

/-- The pages_processed metadata value of process_document. -/
def pagesProcessed (result : PyDict) : PyVal :=
  match pyGet result "metadata" with
  | Option.none => .intV 1
  | some (.dictV m) => pyGetD m "page_count" (.intV 1)
  | some _ => .intV 1

/-- process_document: on success merge the call metadata into the result's
metadata; on any exception return the generic error result of the source;
in both cases the finally block cleans up the temp file exactly once. -/
def process_document (original_filename : String) (file_size : Nat) (md5_hash : String)
    (file_path : String) (file_extension : String) (processing_time_ms : Nat)
    (inner : Except PyExc (String × PyDict)) : PyDict × List String :=
  match inner with
  | .ok (file_type, result) =>
    let metadata : PyDict :=
      [("original_filename", .strV original_filename),
       ("file_type", .strV file_type),
       ("file_size", .intV file_size),
       ("pages_processed", pagesProcessed result),
       ("processing_time_ms", .intV processing_time_ms),
       ("md5_hash", .strV md5_hash)]
    let oldMeta := asDict (pyGetD result "metadata" (.dictV []))
    (pySet result "metadata" (.dictV (dictMerge oldMeta metadata)), [file_path])
  | .error e =>
    ([("document_type", .strV "documento_generico"),
      ("confidence_score", .ratV 0),
      ("metadata", .dictV
        [("original_filename", .strV original_filename),
         ("file_type", .strV (pyLower file_extension)),
         ("file_size", .intV file_size),
         ("pages_processed", .intV 0),
         ("processing_time_ms", .intV processing_time_ms),
         ("md5_hash", .strV md5_hash),
         ("error", .strV e.msg)]),
      ("extracted_data", .dictV []),
      ("raw_text", .strV ""),
      ("processing_notes", .listV [.strV ("Errore durante il processamento: " ++ e.msg)])],
     [file_path])

/-! ## CSV decoding chain (app/services/tabular_processor.py, _csv_to_json
lines 149-158). The three codecs are modelled on byte lists; a decode
yields the list of code points. -/

/-- One byte. -/
abbrev Byte := Fin 256

/-- Continuation byte test (10xxxxxx). -/
def isCont (b : Byte) : Bool := 0x80 ≤ b.val && b.val < 0xC0

/-- Strict UTF-8 decoding as performed by Python bytes.decode("utf-8"):
rejects truncated sequences, continuation-byte errors, overlong forms,
surrogates and code points above 0x10FFFF. -/
def utf8Decode : List Byte → Option (List Nat)
  | [] => some []
  | b :: rest =>
    if b.val < 0x80 then (utf8Decode rest).map (b.val :: ·)
    else if b.val < 0xC2 then Option.none
    else if b.val < 0xE0 then
      match rest with
      | b2 :: rest2 =>
        if isCont b2 then
          (utf8Decode rest2).map (((b.val - 0xC0) * 64 + (b2.val - 0x80)) :: ·)
        else Option.none
      | [] => Option.none
    else if b.val < 0xF0 then
      match rest with
      | b2 :: b3 :: rest3 =>
        if isCont b2 && isCont b3 then
          let cp := (b.val - 0xE0) * 4096 + (b2.val - 0x80) * 64 + (b3.val - 0x80)
          if 0x800 ≤ cp && !(0xD800 ≤ cp && cp ≤ 0xDFFF) then
            (utf8Decode rest3).map (cp :: ·)
          else Option.none
        else Option.none
      | _ => Option.none
    else if b.val < 0xF5 then
      match rest with
      | b2 :: b3 :: b4 :: rest4 =>
        if isCont b2 && isCont b3 && isCont b4 then
          let cp := (b.val - 0xF0) * 262144 + (b2.val - 0x80) * 4096 +
                    (b3.val - 0x80) * 64 + (b4.val - 0x80)
          if 0x10000 ≤ cp && cp ≤ 0x10FFFF then
            (utf8Decode rest4).map (cp :: ·)
          else Option.none
        else Option.none
      | _ => Option.none
    else Option.none

/-- ISO-8859-1 decoding: every byte maps to the code point of its value;
the codec is total on arbitrary bytes. -/
def latin1Decode (bs : List Byte) : Option (List Nat) :=
  some (bs.map (fun b => b.val))

/-- The Windows-1252 mapping of the 0x80-0x9F range; the five unassigned
bytes are decode errors. -/
def cp1252Byte (b : Byte) : Option Nat :=
  if b.val < 0x80 || 0xA0 ≤ b.val then some b.val
  else
    match b.val with
    | 0x80 => some 0x20AC
    | 0x82 => some 0x201A
    | 0x83 => some 0x0192
    | 0x84 => some 0x201E
    | 0x85 => some 0x2026
    | 0x86 => some 0x2020
    | 0x87 => some 0x2021
    | 0x88 => some 0x02C6
    | 0x89 => some 0x2030
    | 0x8A => some 0x0160
    | 0x8B => some 0x2039
    | 0x8C => some 0x0152
    | 0x8E => some 0x017D
    | 0x91 => some 0x2018
    | 0x92 => some 0x2019
    | 0x93 => some 0x201C
    | 0x94 => some 0x201D
    | 0x95 => some 0x2022
    | 0x96 => some 0x2013
    | 0x97 => some 0x2014
    | 0x98 => some 0x02DC
    | 0x99 => some 0x2122
    | 0x9A => some 0x0161
    | 0x9B => some 0x203A
    | 0x9C => some 0x0153
    | 0x9E => some 0x017E
    | 0x9F => some 0x0178
    | _ => Option.none

/-- Windows-1252 decoding. -/
def cp1252Decode (bs : List Byte) : Option (List Nat) :=
  bs.mapM cp1252Byte

/-- Which codec of the fallback chain produced the decode. -/
inductive CsvCodec where
  | utf8 : CsvCodec
  | latin1 : CsvCodec
  | cp1252 : CsvCodec
deriving DecidableEq

/-- The decode chain of _csv_to_json: UTF-8, then ISO-8859-1, then
Windows-1252; an overall failure would propagate as UnicodeDecodeError. -/
def csv_decode_content (bs : List Byte) : Option (CsvCodec × List Nat) :=
  match utf8Decode bs with
  | some cps => some (.utf8, cps)
  | Option.none =>
    match latin1Decode bs with
    | some cps => some (.latin1, cps)
    | Option.none => (cp1252Decode bs).map (fun cps => (.cp1252, cps))

/-! ## Tabular results (app/services/tabular_processor.py, _excel_to_json
and _csv_to_json result construction) and the upload endpoint's response
(main.py /process-document lines 160-169). The pandas outcomes are
parameters. -/

/-- A pandas sheet outcome: record rows and column names. -/
structure Sheet where
  name : String
  rows : List PyDict
  columnNames : List String

/-- A pandas CSV frame outcome. -/
structure CsvFrame where
  rows : List PyDict
  columnNames : List String

/-- _excel_to_json: convert every sheet, detect the document type, and
assemble the result dict of the source. No confidence_score is set. -/
def excel_to_json (sheets : List Sheet) (filename : String)
    (document_type : Option String) : PyDict :=
  let sheets_dict : List (String × List PyDict) := sheets.map (fun s => (s.name, s.rows))
  let sheet_info : List PyVal := sheets.map (fun s =>
    .dictV [("name", .strV s.name),
            ("rows", .intV s.rows.length),
            ("columns", .intV s.columnNames.length),
            ("column_names", .listV (s.columnNames.map .strV))])
  let detected := pyOrStr document_type (tabular_detect_document_type sheets_dict filename)
  [("document_type", .strV detected),
   ("metadata", .dictV
     [("original_filename", .strV filename),
      ("file_type", .strV "excel"),
      ("sheet_count", .intV sheets_dict.length),
      ("sheets", .listV sheet_info)]),
   ("extracted_data", .dictV (sheets_dict.map (fun p => (p.1, .listV (p.2.map .dictV))))),
   ("processing_notes", .listV [])]

/-- Code points to string (all code points produced by the decoders are
valid scalar values). -/
def cpsToString (cps : List Nat) : String :=
  String.mk (cps.map Char.ofNat)

/-- _csv_to_json: decode via the fallback chain, detect the separator from
the first line, read the frame (pandas outcome is the readFrame
parameter), detect the document type and assemble the result dict of the
source. No confidence_score is set. None models a propagated decode
error. -/
def csv_to_json (fileContent : List Byte) (readFrame : String → String → CsvFrame)
    (filename : String) (document_type : Option String) : Option PyDict :=
  match csv_decode_content fileContent with
  | Option.none => Option.none
  | some (_, cps) =>
    let file_content_str := cpsToString cps
    let first_line := (file_content_str.splitOn "\n").headD ""
    let separator :=
      if pyIn ";" first_line then ";"
      else if pyIn "\t" first_line then "\t"
      else if pyIn "|" first_line then "|"
      else ","
    let frame := readFrame file_content_str separator
    let data := frame.rows
    let table_data : List (String × List PyDict) := [("main", data)]
    let detected := pyOrStr document_type (tabular_detect_document_type table_data filename)
    let sheet_info : PyVal :=
      .dictV [("name", .strV "main"),
              ("rows", .intV data.length),
              ("columns", .intV frame.columnNames.length),
              ("column_names", .listV (frame.columnNames.map .strV))]
    some [("document_type", .strV detected),
      ("metadata", .dictV
        [("original_filename", .strV filename),
         ("file_type", .strV "csv"),
         ("separator", .strV separator),
         ("sheet_count", .intV 1),
         ("sheets", .listV [sheet_info])]),
      ("extracted_data", .dictV [("main", .listV (data.map .dictV))]),
      ("processing_notes", .listV [])]

/-- The confidence_score field of the /process-document response:
result.get("confidence_score", 0.0). -/
def endpoint_confidence_score (result : PyDict) : PyVal :=
  pyGetD result "confidence_score" (.ratV 0)

/-! ## Helper lemmas -/

theorem pyStrip_empty : pyStrip "" = "" := rfl

theorem pyGet_pySet_self (d : PyDict) (k : String) (v : PyVal) :
    pyGet (pySet d k v) k = some v := by
  induction d with
  | nil => simp [pySet, pyGet]
  | cons p rest ih =>
    obtain ⟨k', v'⟩ := p
    by_cases h : k' = k
    · simp [pySet, pyGet, h]
    · simp [pySet, pyGet, h, ih]

theorem pyGet_pySet_ne (d : PyDict) (k k' : String) (v : PyVal) (h : k' ≠ k) :
    pyGet (pySet d k' v) k = pyGet d k := by
  induction d with
  | nil => simp [pySet, pyGet, h]
  | cons p rest ih =>
    obtain ⟨k0, v0⟩ := p
    by_cases h0 : k0 = k'
    · simp [pySet, pyGet, h0, h]
    · simp only [pySet, pyGet, if_neg h0]
      by_cases h1 : k0 = k
      · simp [pyGet, h1]
      · simp [pyGet, h1, ih]

theorem string_append_ne_empty (a b : String) (h : a ≠ "") : a ++ b ≠ "" := by
  intro hc
  apply h
  have hlen := congrArg String.length hc
  rw [String.length_append] at hlen
  have hz : "".length = 0 := rfl
  rw [hz] at hlen
  have : a.length = 0 := by omega
  exact String.ext (List.length_eq_zero.mp this)

theorem attrErrMsg_ne_empty (v : PyVal) (attr : String) : attrErrMsg v attr ≠ "" := by
  unfold attrErrMsg
  exact string_append_ne_empty _ _ (string_append_ne_empty _ _
    (string_append_ne_empty _ _ (string_append_ne_empty _ _ (by decide))))

theorem checkPdfIsNative_iff (pages : List String) :
    checkPdfIsNative pages = true ↔ ∃ t ∈ pages, (pyStrip t).length > 50 := by
  induction pages with
  | nil => simp [checkPdfIsNative]
  | cons t rest ih =>
    unfold checkPdfIsNative
    by_cases h : t ≠ "" ∧ (pyStrip t).length > min_text_length
    · simp only [if_pos h]
      constructor
      · intro _
        exact ⟨t, List.mem_cons_self t rest, h.2⟩
      · intro _; trivial
    · simp only [if_neg h]
      rw [ih]
      constructor
      · rintro ⟨u, hu, hlen⟩
        exact ⟨u, List.mem_cons_of_mem t hu, hlen⟩
      · rintro ⟨u, hu, hlen⟩
        rcases List.mem_cons.mp hu with rfl | hu
        · exfalso
          apply h
          refine ⟨?_, hlen⟩
          intro he
          rw [he] at hlen
          simp [pyStrip_empty] at hlen
        · exact ⟨u, hu, hlen⟩

/-! ## Claim theorems -/

/-- C1: when the image pipeline's vision analysis is merged into the
result, the vision-model document-type classification is applied only when
its reported confidence exceeds 0.7; for every vision classification with
confidence at most 0.7, the final document_type and confidence_score are
left untouched. -/
theorem c1_vision_confidence_threshold (analysis : PyDict) (info : MistralVisionInfo) :
    (info.confidence ≤ 0.7 →
      pyGet (apply_mistral_vision analysis (some info)) "document_type" =
        pyGet analysis "document_type" ∧
      pyGet (apply_mistral_vision analysis (some info)) "confidence_score" =
        pyGet analysis "confidence_score") ∧
    (0.7 < info.confidence →
      pyGet (apply_mistral_vision analysis (some info)) "document_type" =
        some (.strV info.document_type) ∧
      pyGet (apply_mistral_vision analysis (some info)) "confidence_score" =
        some (.ratV info.confidence)) := by
  constructor
  · intro h
    have hnot : ¬ info.confidence > 0.7 := not_lt.mpr h
    simp only [apply_mistral_vision, if_neg hnot]
    constructor
    · rw [pyGet_pySet_ne _ _ _ _ (by decide), pyGet_pySet_ne _ _ _ _ (by decide)]
    · rw [pyGet_pySet_ne _ _ _ _ (by decide), pyGet_pySet_ne _ _ _ _ (by decide)]
  · intro h
    simp only [apply_mistral_vision, if_pos h]
    constructor
    · rw [pyGet_pySet_ne _ _ _ _ (by decide), pyGet_pySet_ne _ _ _ _ (by decide),
        pyGet_pySet_self]
    · rw [pyGet_pySet_ne _ _ _ _ (by decide), pyGet_pySet_self]

/-- C1 witness: a 0.5-confidence vision classification leaves the analysis
untouched; a 0.9-confidence one overrides it. -/
theorem c1_vision_confidence_threshold_witness :
    pyGet (apply_mistral_vision [("document_type", .strV "fattura")]
      (some ⟨"bilancio", 1/2, .dictV [], "it"⟩)) "document_type" = some (.strV "fattura") ∧
    pyGet (apply_mistral_vision [("document_type", .strV "fattura")]
      (some ⟨"bilancio", 9/10, .dictV [], "it"⟩)) "document_type" = some (.strV "bilancio") := by
  constructor
  · rw [(c1_vision_confidence_threshold [("document_type", .strV "fattura")]
      ⟨"bilancio", 1/2, .dictV [], "it"⟩).1 (by norm_num) |>.1]
    rfl
  · exact ((c1_vision_confidence_threshold [("document_type", .strV "fattura")]
      ⟨"bilancio", 9/10, .dictV [], "it"⟩).2 (by norm_num)).1

/-- C2: whenever the model response's message content is not a parseable
JSON object (a JSON parse error, or a JSON value that is not an object),
analyze_document_text and analyze_document_image return the degraded
result with document_type sconosciuto, confidence 0, empty extracted_data
and a non-empty error field; no exception is raised (the embedded
handlers are total). -/
theorem c2_llm_adapter_resilience (parsed : Except String PyVal)
    (h : ∀ fields, parsed ≠ .ok (.dictV fields)) :
    DegradedResult (analyze_document_text_content parsed) ∧
    DegradedResult (analyze_document_image_content parsed) := by
  cases parsed with
  | error e =>
    exact ⟨⟨rfl, rfl, rfl, _, rfl, by decide⟩, ⟨rfl, rfl, rfl, _, rfl, by decide⟩⟩
  | ok v =>
    cases v
    case dictV fields => exact absurd rfl (h fields)
    all_goals
      exact ⟨⟨rfl, rfl, rfl, _, rfl, attrErrMsg_ne_empty _ _⟩,
        ⟨rfl, rfl, rfl, _, rfl, attrErrMsg_ne_empty _ _⟩⟩

/-- C2 witness: a malformed JSON response content degrades both
adapters. -/
theorem c2_llm_adapter_resilience_witness :
    DegradedResult (analyze_document_text_content (.error "Expecting value")) ∧
    DegradedResult (analyze_document_image_content (.error "Expecting value")) :=
  c2_llm_adapter_resilience (.error "Expecting value")
    (fun _ hcontra => Except.noConfusion hcontra)

/-- C3 counterexample: the claim asserts that filename keyword matching is
evaluated first across all five categories; but for the filename
bilancio.pdf (whose filename matches the balance-sheet keywords) with page
text containing the invoice keyword fattura, the PDF detector returns
fattura, while the claimed filename-first order would return bilancio. -/
theorem c3_precedence_counterexample :
    pdf_detect_document_type [(0, "fattura")] "bilancio.pdf" = "fattura" ∧
    claimC3PdfDetect [(0, "fattura")] "bilancio.pdf" = "bilancio" ∧
    anyKw (pyLower "bilancio.pdf") ["bilancio", "balance"] = true :=
  ⟨rfl, rfl, rfl⟩

/-- C3 amended: categories are evaluated in the fixed order invoice,
balance-sheet, inventory, receipt, market-analysis and the first matching
category wins; in the tabular detector filename keywords are evaluated
first across all five categories with column-name matching consulted only
when no filename keyword matches, while in the PDF detector each category
is matched by its filename keywords OR its full-text keywords together, so
full-text matching is not deferred until all filename categories fail. -/
theorem c3_detection_order_amended (text_content : List (Nat × String))
    (data_dict : List (String × List PyDict)) (filename : String) :
    pdf_detect_document_type text_content filename = pdfDetectOrdered text_content filename ∧
    tabular_detect_document_type data_dict filename = tabDetectFilenameFirst data_dict filename := by
  constructor
  · rfl
  · simp only [tabular_detect_document_type, tabDetectFilenameFirst, tabFnCats, List.find?]
    cases h1 : anyKw (pyLower filename) ["fattura", "invoice"] <;>
      cases h2 : anyKw (pyLower filename) ["bilancio", "balance"] <;>
        cases h3 : anyKw (pyLower filename) ["magazzino", "inventory", "stock"] <;>
          cases h4 : anyKw (pyLower filename) ["corrispettivo", "receipt"] <;>
            cases h5 : anyKw (pyLower filename) ["analisi", "report", "analysis"] <;>
              simp [h1, h2, h3, h4, h5, Option.getD]
    all_goals cases tabularColumnsDetect data_dict <;> rfl

/-- C4 counterexample: a single-page PDF whose page text has only 2
non-whitespace characters (at most 50) is still classified native,
because the threshold is applied to the length of the stripped text and
interior whitespace counts. -/
theorem c4_probe_counterexample :
    (check_pdf_type [c4Page]).1 = true ∧ countNonWs c4Page ≤ 50 := by
  constructor
  · rfl
  · decide

/-- C4 amended: a PDF is classified native_pdf if and only if some page's
extracted text, after stripping leading and trailing whitespace, has
length strictly greater than 50 — interior whitespace counts toward the
threshold, which is not a count of non-whitespace characters. -/
theorem c4_pdf_probe_trim_amended (pages : List String) :
    (check_pdf_type pages).1 = true ↔ ∃ t ∈ pages, (pyStrip t).length > 50 :=
  checkPdfIsNative_iff pages

/-- C5 counterexample: for a concrete two-page scanned PDF the assembled
result has no raw_text field at all — the per-page OCR texts are stored as
a page-indexed mapping under extracted_data.text and are never
concatenated with a blank-line separator into raw_text. -/
theorem c5_raw_text_counterexample :
    pyGet (process_pdf_scanned "scan.pdf" Option.none true [] 2 c5Ocr).1 "raw_text" =
      Option.none ∧
    pyGet (asDict (pyGetD (process_pdf_scanned "scan.pdf" Option.none true [] 2 c5Ocr).1
        "extracted_data" (.dictV []))) "text" =
      some (.idictV [(0, .strV "testo pagina uno"), (1, .strV "testo pagina due")]) :=
  ⟨rfl, rfl⟩

/-- C5 amended: for every scanned PDF processed successfully, every page
is rasterized at the 300-DPI fitz matrix and run through OCR, and the
per-page OCR texts are stored as a page-indexed mapping under
extracted_data.text; the result carries no raw_text field (no blank-line
concatenation is performed). -/
theorem c5_scanned_pipeline_amended (filename : String) (dhint : Option String)
    (metaPairs : List (String × String)) (pageCount : Nat) (ocrText : Nat → String) :
    (process_pdf_scanned filename dhint true metaPairs pageCount ocrText).2 =
      (List.range pageCount).map (fun i => (i, fitzMatrixZoom)) ∧
    fitzMatrixZoom * 72 = 300 ∧
    pyGet (process_pdf_scanned filename dhint true metaPairs pageCount ocrText).1
      "raw_text" = Option.none ∧
    pyGet (asDict (pyGetD (process_pdf_scanned filename dhint true metaPairs pageCount ocrText).1
        "extracted_data" (.dictV []))) "text" =
      some (.idictV ((List.range pageCount).map (fun i => (i, .strV (ocrText i))))) := by
  refine ⟨rfl, by norm_num [fitzMatrixZoom], rfl, ?_⟩
  simp [process_pdf_scanned, extract_from_scanned_pdf, pyGet, pyGetD, asDict,
    List.map_map, Function.comp]

/-- C6: whenever the dispatch-and-process block raises (as it does for an
unreadable document container, including a zero-byte .pdf upload, whose
exception reaches the catch-all of process_document), process_document
still returns the well-formed generic result of the source — document_type
documento_generico with confidence_score 0.0 and a non-empty explanatory
processing note — instead of letting the exception escape (the embedded
handler is total). -/
theorem c6_structural_failure_result (ofn : String) (fs : Nat) (md5 fp ext : String)
    (pt : Nat) (e : PyExc) :
    pyGet (process_document ofn fs md5 fp ext pt (.error e)).1 "document_type" =
      some (.strV "documento_generico") ∧
    pyGet (process_document ofn fs md5 fp ext pt (.error e)).1 "confidence_score" =
      some (.ratV 0) ∧
    ∃ s, pyGet (process_document ofn fs md5 fp ext pt (.error e)).1 "processing_notes" =
      some (.listV [.strV s]) ∧ s ≠ "" :=
  ⟨rfl, rfl, _, rfl, string_append_ne_empty _ _ (by decide)⟩

/-- C7: on every execution path — the success branch as well as the
catch-all error branch — the finally block of process_document invokes the
temp-file cleanup exactly once, on the uploaded file's path. -/
theorem c7_cleanup_exactly_once (ofn : String) (fs : Nat) (md5 fp ext : String) (pt : Nat)
    (inner : Except PyExc (String × PyDict)) :
    (process_document ofn fs md5 fp ext pt inner).2 = [fp] := by
  cases inner with
  | ok r => obtain ⟨ft, res⟩ := r; rfl
  | error e => rfl

/-- C8: the vision model is invoked exactly once if and only if the OCR
text has fewer than 200 characters after trimming whitespace (and not at
all otherwise), and when the vision result carries a non-empty raw_text,
that text is the raw_text of the assembled result in place of the OCR
text. -/
theorem c8_vision_escalation (text : String) (ia vis llm : PyDict) :
    ((process_image_pipeline text ia vis llm).2 =
      if (pyStrip text).length < 200 then 1 else 0) ∧
    (∀ s, (pyStrip text).length < 200 → pyGet vis "raw_text" = some (.strV s) → s ≠ "" →
      pyGet (process_image_pipeline text ia vis llm).1 "raw_text" = some (.strV s)) := by
  constructor
  · by_cases h : (pyStrip text).length < 200 <;>
      simp [process_image_pipeline, h]
  · intro s h hs _
    simp only [process_image_pipeline, if_pos h]
    rw [pyGet_pySet_ne _ _ _ _ (by decide), pyGet_pySet_ne _ _ _ _ (by decide),
      pyGet_pySet_ne _ _ _ _ (by decide)]
    exact hs

/-- C8 witness: empty OCR text escalates (exactly one vision call) and the
vision raw_text ends up in the result. -/
theorem c8_vision_escalation_witness :
    (process_image_pipeline "" [] [("raw_text", .strV "Testo estratto")] []).2 = 1 ∧
    pyGet (process_image_pipeline "" [] [("raw_text", .strV "Testo estratto")] []).1
      "raw_text" = some (.strV "Testo estratto") := by
  have h := c8_vision_escalation "" [] [("raw_text", .strV "Testo estratto")] []
  constructor
  · rw [h.1]; decide
  · exact h.2 "Testo estratto" (by decide) rfl (by decide)

/-- C9: the CSV decode chain terminates with a decoded string for every
byte sequence — ISO-8859-1 is total on arbitrary bytes, so the
Windows-1252 branch is unreachable and no decode error can propagate; when
UTF-8 fails, the result is exactly the ISO-8859-1 decoding. -/
theorem c9_decode_chain_total (bs : List Byte) :
    (∃ r, csv_decode_content bs = some r) ∧
    (∀ c cps, csv_decode_content bs = some (c, cps) → c ≠ CsvCodec.cp1252) ∧
    (utf8Decode bs = Option.none →
      csv_decode_content bs = some (CsvCodec.latin1, bs.map (fun b => b.val))) := by
  unfold csv_decode_content
  cases hu : utf8Decode bs with
  | some cps =>
    refine ⟨⟨_, rfl⟩, ?_, ?_⟩
    · intro c cps' h
      simp only [Option.some.injEq, Prod.mk.injEq] at h
      rw [← h.1]
      decide
    · intro h
      exact Option.noConfusion h
  | none =>
    refine ⟨⟨_, rfl⟩, ?_, fun _ => rfl⟩
    intro c cps h
    simp only [latin1Decode, Option.some.injEq, Prod.mk.injEq] at h
    rw [← h.1]
    decide

/-- C9 witness: the byte 0xFF is not valid UTF-8 and decodes through the
ISO-8859-1 fallback, never reaching the Windows-1252 branch. -/
theorem c9_decode_chain_total_witness :
    csv_decode_content [(255 : Byte)] = some (CsvCodec.latin1, [255]) ∧
    CsvCodec.latin1 ≠ CsvCodec.cp1252 := by
  have h := c9_decode_chain_total [(255 : Byte)]
  have h3 := h.2.2 rfl
  exact ⟨h3, h.2.1 _ _ h3⟩

/-- C10: neither tabular result carries a confidence_score field, so after
the metadata merge of process_document the upload endpoint's
result.get("confidence_score", 0.0) reports 0.0 for every successfully
processed Excel or CSV document, whatever document type was detected. -/
theorem c10_tabular_confidence_default
    (sheets : List Sheet) (content : List Byte) (readFrame : String → String → CsvFrame)
    (filename : String) (dhint : Option String)
    (ofn : String) (fs : Nat) (md5 fp ext : String) (pt : Nat) (ft : String) :
    pyGet (excel_to_json sheets filename dhint) "confidence_score" = Option.none ∧
    endpoint_confidence_score
      (process_document ofn fs md5 fp ext pt (.ok (ft, excel_to_json sheets filename dhint))).1 =
      .ratV 0 ∧
    (∀ d, csv_to_json content readFrame filename dhint = some d →
      pyGet d "confidence_score" = Option.none ∧
      endpoint_confidence_score
        (process_document ofn fs md5 fp ext pt (.ok (ft, d))).1 = .ratV 0) := by
  refine ⟨rfl, ?_, ?_⟩
  · show pyGetD (pySet (excel_to_json sheets filename dhint) "metadata" _)
      "confidence_score" _ = _
    rw [pyGetD, pyGet_pySet_ne _ _ _ _ (by decide)]
    rfl
  · intro d hd
    cases hdec : csv_decode_content content with
    | none => simp [csv_to_json, hdec] at hd
    | some r =>
      obtain ⟨codec, cps⟩ := r
      simp only [csv_to_json, hdec] at hd
      have hd' := Option.some.inj hd
      subst hd'
      refine ⟨rfl, ?_⟩
      show pyGetD (pySet _ "metadata" _) "confidence_score" _ = _
      rw [pyGetD, pyGet_pySet_ne _ _ _ _ (by decide)]
      rfl

/-- C10 witness: a concrete one-byte CSV upload processed through the
chain reports confidence_score 0.0 at the endpoint. -/
theorem c10_tabular_confidence_default_witness :
    pyGet ((csv_to_json [(65 : Byte)] (fun _ _ => ⟨[], []⟩) "dati.csv" Option.none).getD [])
      "confidence_score" = Option.none ∧
    endpoint_confidence_score
      (process_document "dati.csv" 1 "h" "/tmp/x" "csv" 0
        (.ok ("csv", (csv_to_json [(65 : Byte)] (fun _ _ => ⟨[], []⟩) "dati.csv" Option.none).getD []))).1 =
      .ratV 0 :=
  (c10_tabular_confidence_default [] [(65 : Byte)] (fun _ _ => ⟨[], []⟩) "dati.csv"
    Option.none "dati.csv" 1 "h" "/tmp/x" "csv" 0 "csv").2.2 _ rfl

end Datapdfimg
